import Mathlib

/-!
Verification of the `summit` local health store schema and migration.

Shallow embedding of `src/src-tauri/src/lib.rs`: the single version-1 SQL
migration (three `CREATE TABLE IF NOT EXISTS` statements and three unguarded
`CREATE INDEX` statements), its registration against `sqlite:summit.db`, and
an executable model of the SQLite behaviors the specification appeals to
(DDL execution, the migration runner's version bookkeeping, and row insertion
with NOT NULL and UNIQUE constraint checking).
-/

set_option autoImplicit false

namespace Summit

/-- SQL column types occurring in the migration (`INTEGER`, `TEXT`, `REAL`). -/
inductive ColType where
  | integer
  | text
  | real
  deriving DecidableEq, Repr

/-- Column default clauses occurring in the migration (`DEFAULT CURRENT_TIMESTAMP`). -/
inductive SqlDefault where
  | currentTimestamp
  deriving DecidableEq, Repr

/-- One column declaration of a `CREATE TABLE` statement. -/
structure Column where
  name : String
  type : ColType
  /-- Marks an `INTEGER PRIMARY KEY AUTOINCREMENT` column. -/
  pkAutoincrement : Bool := false
  notNull : Bool := false
  unique : Bool := false
  default_ : Option SqlDefault := none
  deriving DecidableEq, Repr

/-- A table definition: name, columns, and table-level `UNIQUE(...)` constraints. -/
structure TableDef where
  name : String
  columns : List Column
  tableUniques : List (List String) := []
  deriving DecidableEq, Repr

/-- An index definition (`CREATE INDEX name ON table(cols)`). -/
structure IndexDef where
  name : String
  table : String
  columns : List String
  deriving DecidableEq, Repr

/-- A statement of the version-1 batch: `CREATE TABLE` (optionally guarded with
`IF NOT EXISTS`) or `CREATE INDEX` (optionally guarded — the source uses no guard). -/
inductive Stmt where
  | createTable (ifNotExists : Bool) (t : TableDef)
  | createIndex (ifNotExists : Bool) (i : IndexDef)
  deriving DecidableEq, Repr

/-- Migration kind from `tauri_plugin_sql` (the source uses `MigrationKind::Up`). -/
inductive MigrationKind where
  | up
  | down
  deriving DecidableEq, Repr

/-- A migration record: `Migration { version, description, sql, kind }` from the source. -/
structure Migration where
  version : Nat
  description : String
  sql : List Stmt
  kind : MigrationKind
  deriving DecidableEq, Repr

/-! ## The version-1 DDL, transcribed statement by statement from `lib.rs` -/

/-- Transcription of `CREATE TABLE IF NOT EXISTS health_metrics (...)` from `lib.rs`. -/
def healthMetricsTable : TableDef :=
  { name := "health_metrics"
    columns :=
      [ { name := "id", type := .integer, pkAutoincrement := true }
      , { name := "date", type := .text, notNull := true, unique := true }
      , { name := "body_battery", type := .integer }
      , { name := "sleep_score", type := .integer }
      , { name := "sleep_duration_seconds", type := .integer }
      , { name := "deep_sleep_seconds", type := .integer }
      , { name := "rem_sleep_seconds", type := .integer }
      , { name := "stress_avg", type := .integer }
      , { name := "resting_hr", type := .integer }
      , { name := "hrv_avg", type := .integer }
      , { name := "intensity_minutes", type := .integer }
      , { name := "steps", type := .integer }
      , { name := "created_at", type := .text, default_ := some .currentTimestamp }
      , { name := "updated_at", type := .text, default_ := some .currentTimestamp } ] }

/-- Transcription of `CREATE TABLE IF NOT EXISTS vital_scores (...)` from `lib.rs`. -/
def vitalScoresTable : TableDef :=
  { name := "vital_scores"
    columns :=
      [ { name := "id", type := .integer, pkAutoincrement := true }
      , { name := "date", type := .text, notNull := true, unique := true }
      , { name := "score", type := .integer, notNull := true }
      , { name := "sleep_component", type := .integer }
      , { name := "recovery_component", type := .integer }
      , { name := "strain_component", type := .integer }
      , { name := "recommendation", type := .text }
      , { name := "created_at", type := .text, default_ := some .currentTimestamp } ] }

/-- Transcription of `CREATE TABLE IF NOT EXISTS trends (...)` from `lib.rs`, with the
table-level `UNIQUE(metric, timeframe)` constraint. -/
def trendsTable : TableDef :=
  { name := "trends"
    columns :=
      [ { name := "id", type := .integer, pkAutoincrement := true }
      , { name := "metric", type := .text, notNull := true }
      , { name := "timeframe", type := .text, notNull := true }
      , { name := "baseline", type := .real }
      , { name := "current_avg", type := .real }
      , { name := "percent_change", type := .real }
      , { name := "direction", type := .text }
      , { name := "detected_at", type := .text, default_ := some .currentTimestamp } ]
    tableUniques := [["metric", "timeframe"]] }

/-- Transcription of `CREATE INDEX idx_health_metrics_date ON health_metrics(date)` — no guard. -/
def idxHealthMetricsDate : IndexDef :=
  { name := "idx_health_metrics_date", table := "health_metrics", columns := ["date"] }

/-- Transcription of `CREATE INDEX idx_vital_scores_date ON vital_scores(date)` — no guard. -/
def idxVitalScoresDate : IndexDef :=
  { name := "idx_vital_scores_date", table := "vital_scores", columns := ["date"] }

/-- Transcription of `CREATE INDEX idx_trends_metric ON trends(metric, timeframe)` — no guard. -/
def idxTrendsMetric : IndexDef :=
  { name := "idx_trends_metric", table := "trends", columns := ["metric", "timeframe"] }

/-- The six statements of the version-1 SQL batch, in source order. -/
def migrationV1Sql : List Stmt :=
  [ .createTable true healthMetricsTable
  , .createTable true vitalScoresTable
  , .createTable true trendsTable
  , .createIndex false idxHealthMetricsDate
  , .createIndex false idxVitalScoresDate
  , .createIndex false idxTrendsMetric ]

/-- The `migrations` vector built in `run()`: a single version-1 `Up` migration. -/
def migrations : List Migration :=
  [ { version := 1
      description := "create initial tables"
      sql := migrationV1Sql
      kind := .up } ]

/-- The database connection string the migration set is registered against:
`.add_migrations("sqlite:summit.db", migrations)`. -/
def registeredDbUrl : String := "sqlite:summit.db"

/-- The registration performed on the `tauri_plugin_sql` builder: pairs of
connection string and migration list. The source registers exactly one pair. -/
def sqlPluginRegistrations : List (String × List Migration) :=
  [(registeredDbUrl, migrations)]

/-! ## SQL values and rows -/

/-- A stored SQL value. `REAL` values are modelled as rationals; no claim
depends on floating-point rounding. -/
inductive Value where
  | null
  | int (i : Int)
  | real (q : Rat)
  | text (s : String)
  deriving DecidableEq, Repr

/-- A row: one `(column name, value)` pair per column of its table, in
declaration order. -/
def Row : Type := List (String × Value)

instance : DecidableEq Row := by unfold Row; infer_instance

/-- Value of column `c` in row `r` (`NULL` if absent). -/
def getVal (r : Row) (c : String) : Value :=
  match r.find? (fun p => p.1 = c) with
  | some p => p.2
  | none => .null

/-- A table's current state: its definition and its rows in insertion order. -/
structure TableState where
  def_ : TableDef
  rows : List Row
  deriving DecidableEq

/-- Full store state: tables, indexes, and the migration bookkeeping
(the set of versions recorded as applied). -/
structure DbState where
  tables : List TableState
  indexes : List IndexDef
  appliedVersions : List Nat
  deriving DecidableEq

/-- A fresh empty store: no tables, no indexes, no applied versions. -/
def emptyDb : DbState := { tables := [], indexes := [], appliedVersions := [] }

/-- Errors surfaced by the store, per the spec's taxonomy:
`SchemaError` for SQL/DDL execution failures, `ConstraintViolation` for
inserts breaking a NOT NULL or UNIQUE constraint. -/
inductive SqlError where
  | schemaError
  | constraintViolation
  deriving DecidableEq, Repr

/-- First table state with the given table name, if any. -/
def findTable (db : DbState) (n : String) : Option TableState :=
  db.tables.find? (fun ts => ts.def_.name = n)

/-- Whether a table with the given name exists. -/
def hasTable (db : DbState) (n : String) : Bool :=
  (findTable db n).isSome

/-- Whether an index with the given name exists. -/
def hasIndex (db : DbState) (n : String) : Bool :=
  db.indexes.any (fun i => i.name = n)

/-! ## DDL execution (SQLite semantics)

`CREATE TABLE IF NOT EXISTS` is a no-op when a table of that name exists;
an unguarded `CREATE TABLE` or `CREATE INDEX` whose object already exists
fails with a schema error; `CREATE INDEX` also fails when the indexed table
is missing. -/

/-- Execute a single DDL statement. -/
def execStmt (db : DbState) : Stmt → Except SqlError DbState
  | .createTable ine t =>
    if hasTable db t.name then
      if ine then .ok db else .error .schemaError
    else .ok { db with tables := db.tables ++ [{ def_ := t, rows := [] }] }
  | .createIndex ine i =>
    if hasIndex db i.name then
      if ine then .ok db else .error .schemaError
    else if hasTable db i.table then
      .ok { db with indexes := db.indexes ++ [i] }
    else .error .schemaError

/-- Execute a statement batch in order, stopping at the first error. -/
def execBatch (db : DbState) : List Stmt → Except SqlError DbState
  | [] => .ok db
  | s :: rest =>
    match execStmt db s with
    | .error e => .error e
    | .ok db' => execBatch db' rest

/-- Modelled from the spec: the migration runner of `tauri_plugin_sql` is not
part of this repository's sources; per §4.1 it applies every migration whose
version has not yet been recorded as applied, in list order, exactly once,
and records it as applied; an already-recorded version is skipped. -/
def applyMigrations (db : DbState) : List Migration → Except SqlError DbState
  | [] => .ok db
  | m :: rest =>
    if m.version ∈ db.appliedVersions then applyMigrations db rest
    else
      match execBatch db m.sql with
      | .error e => .error e
      | .ok db' =>
        applyMigrations
          { db' with appliedVersions := db'.appliedVersions ++ [m.version] } rest

/-! ## Row insertion (SQLite semantics)

Modelled from the spec: no SQL engine code is part of this repository's
sources; §3 and §7 specify the behavior the schema's constraints induce on
inserts — omitted columns take their declared defaults (`CURRENT_TIMESTAMP`
becomes the insertion time, an `INTEGER PRIMARY KEY AUTOINCREMENT` column a
fresh id, anything else `NULL`), a `NOT NULL` column resolving to `NULL`
fails, and a row agreeing with an existing row on a fully non-NULL `UNIQUE`
key fails with `ConstraintViolation`, leaving the table unchanged. -/

/-- Value explicitly supplied for column `c` by an insert, if any
(distinguishes an omitted column from an explicit `NULL`). -/
def assignedVal (assigns : List (String × Value)) (c : String) : Option Value :=
  match assigns.find? (fun p => p.1 = c) with
  | some p => some p.2
  | none => none

/-- Integer id of a row (0 when the id is absent or not an integer). -/
def idOf (r : Row) : Int :=
  match getVal r "id" with
  | .int i => i
  | _ => 0

/-- Largest integer id among the rows (0 for an empty table). -/
def idMax : List Row → Int
  | [] => 0
  | r :: rest => max (idOf r) (idMax rest)

/-- Id auto-assigned to the next inserted row: one past the current maximum. -/
def nextId (rows : List Row) : Int := idMax rows + 1

/-- Value an omitted column takes: the fresh id for the autoincrement primary
key, the insertion timestamp for `DEFAULT CURRENT_TIMESTAMP`, else `NULL`. -/
def defaultVal (now : String) (nid : Int) (c : Column) : Value :=
  if c.pkAutoincrement then .int nid
  else
    match c.default_ with
    | some .currentTimestamp => .text now
    | none => .null

/-- Materialize the full row an insert statement produces. -/
def buildRow (now : String) (nid : Int) (t : TableDef) (assigns : List (String × Value)) : Row :=
  t.columns.map (fun c =>
    (c.name,
      match assignedVal assigns c.name with
      | some v => v
      | none => defaultVal now nid c))

/-- The values of row `r` at the key columns `k`. -/
def keyVals (r : Row) (k : List String) : List Value := k.map (getVal r)

/-- All unique keys of a table: the primary key, each column-level `UNIQUE`
column, and each table-level `UNIQUE(...)` constraint. -/
def uniqueKeys (t : TableDef) : List (List String) :=
  ((t.columns.filter (fun c => c.pkAutoincrement)).map (fun c => [c.name]))
    ++ ((t.columns.filter (fun c => c.unique)).map (fun c => [c.name]))
    ++ t.tableUniques

/-- Every `NOT NULL` column of the row carries a non-`NULL` value. -/
def NotNullOk (t : TableDef) (r : Row) : Prop :=
  ∀ c ∈ t.columns, c.notNull = true → getVal r c.name ≠ .null

instance (t : TableDef) (r : Row) : Decidable (NotNullOk t r) := by
  unfold NotNullOk; infer_instance

/-- The new row conflicts with an existing row on key `k`: its key tuple is
fully non-`NULL` (SQLite treats `NULL`s as distinct in unique indexes) and
equals some existing row's key tuple. -/
def KeyConflict (rows : List Row) (k : List String) (r : Row) : Prop :=
  (∀ v ∈ keyVals r k, v ≠ .null) ∧ ∃ r0 ∈ rows, keyVals r0 k = keyVals r k

instance (rows : List Row) (k : List String) (r : Row) : Decidable (KeyConflict rows k r) := by
  unfold KeyConflict; infer_instance

/-- No unique key of the table is violated by adding the row. -/
def UniqueOk (t : TableDef) (rows : List Row) (r : Row) : Prop :=
  ∀ k ∈ uniqueKeys t, ¬ KeyConflict rows k r

instance (t : TableDef) (rows : List Row) (r : Row) : Decidable (UniqueOk t rows r) := by
  unfold UniqueOk; infer_instance

/-- Replace the row list of the named table. -/
def setTable (db : DbState) (n : String) (rows : List Row) : DbState :=
  { db with
    tables := db.tables.map (fun ts =>
      if ts.def_.name = n then { ts with rows := rows } else ts) }

/-- Insert into one table state: build the row, check `NOT NULL` then the
unique keys; on success append the row, otherwise report the violation. -/
def insertInto (now : String) (ts : TableState) (assigns : List (String × Value)) :
    Except SqlError (List Row) :=
  let row := buildRow now (nextId ts.rows) ts.def_ assigns
  if NotNullOk ts.def_ row then
    if UniqueOk ts.def_ ts.rows row then .ok (ts.rows ++ [row])
    else .error .constraintViolation
  else .error .constraintViolation

/-- Insert a row into the named table of the store. A failed insert returns
only the error: the store (in particular the target table) is unchanged. -/
def insertRow (now : String) (db : DbState) (tname : String)
    (assigns : List (String × Value)) : Except SqlError DbState :=
  match findTable db tname with
  | none => .error .schemaError
  | some ts =>
    match insertInto now ts assigns with
    | .error e => .error e
    | .ok rows => .ok (setTable db tname rows)

end Summit

deriving instance DecidableEq for Except

namespace Summit

/-! ## Derived states and the spec's view of the schema -/

/-- The store produced by running the migration set on a fresh empty store. -/
def freshDb : DbState :=
  { tables := [⟨healthMetricsTable, []⟩, ⟨vitalScoresTable, []⟩, ⟨trendsTable, []⟩]
    indexes := [idxHealthMetricsDate, idxVitalScoresDate, idxTrendsMetric]
    appliedVersions := [1] }

/-- A store that already has the three tables and three indexes but whose
migration bookkeeping was lost (no version recorded as applied). -/
def dbWithSchema : DbState := { freshDb with appliedVersions := [] }

/-- The `health_metrics` layout exactly as §6 of the spec writes it:
`health_metrics(id PK autoincrement, date TEXT UNIQUE NOT NULL, body_battery
INT, sleep_score INT, sleep_duration_seconds INT, deep_sleep_seconds INT,
rem_sleep_seconds INT, stress_avg INT, resting_hr INT, hrv_avg INT,
intensity_minutes INT, steps INT, created_at TEXT DEFAULT now, updated_at
TEXT DEFAULT now)`. -/
def specHealthMetrics : TableDef :=
  { name := "health_metrics"
    columns :=
      [ { name := "id", type := .integer, pkAutoincrement := true }
      , { name := "date", type := .text, unique := true, notNull := true }
      , { name := "body_battery", type := .integer }
      , { name := "sleep_score", type := .integer }
      , { name := "sleep_duration_seconds", type := .integer }
      , { name := "deep_sleep_seconds", type := .integer }
      , { name := "rem_sleep_seconds", type := .integer }
      , { name := "stress_avg", type := .integer }
      , { name := "resting_hr", type := .integer }
      , { name := "hrv_avg", type := .integer }
      , { name := "intensity_minutes", type := .integer }
      , { name := "steps", type := .integer }
      , { name := "created_at", type := .text, default_ := some .currentTimestamp }
      , { name := "updated_at", type := .text, default_ := some .currentTimestamp } ] }

/-- The `vital_scores` layout exactly as §6 of the spec writes it:
`vital_scores(id PK autoincrement, date TEXT UNIQUE NOT NULL, score INT NOT
NULL, sleep_component INT, recovery_component INT, strain_component INT,
recommendation TEXT, created_at TEXT DEFAULT now)`. -/
def specVitalScores : TableDef :=
  { name := "vital_scores"
    columns :=
      [ { name := "id", type := .integer, pkAutoincrement := true }
      , { name := "date", type := .text, unique := true, notNull := true }
      , { name := "score", type := .integer, notNull := true }
      , { name := "sleep_component", type := .integer }
      , { name := "recovery_component", type := .integer }
      , { name := "strain_component", type := .integer }
      , { name := "recommendation", type := .text }
      , { name := "created_at", type := .text, default_ := some .currentTimestamp } ] }

/-- The `trends` layout exactly as §6 of the spec writes it:
`trends(id PK autoincrement, metric TEXT NOT NULL, timeframe TEXT NOT NULL,
baseline REAL, current_avg REAL, percent_change REAL, direction TEXT,
detected_at TEXT DEFAULT now, UNIQUE(metric, timeframe))`. -/
def specTrends : TableDef :=
  { name := "trends"
    columns :=
      [ { name := "id", type := .integer, pkAutoincrement := true }
      , { name := "metric", type := .text, notNull := true }
      , { name := "timeframe", type := .text, notNull := true }
      , { name := "baseline", type := .real }
      , { name := "current_avg", type := .real }
      , { name := "percent_change", type := .real }
      , { name := "direction", type := .text }
      , { name := "detected_at", type := .text, default_ := some .currentTimestamp } ]
    tableUniques := [["metric", "timeframe"]] }

/-- The three indexes of §6 — `INDEX on health_metrics(date); INDEX on
vital_scores(date); INDEX on trends(metric, timeframe)` — under the names
the source gives them. -/
def specIndexes : List IndexDef :=
  [ { name := "idx_health_metrics_date", table := "health_metrics", columns := ["date"] }
  , { name := "idx_vital_scores_date", table := "vital_scores", columns := ["date"] }
  , { name := "idx_trends_metric", table := "trends", columns := ["metric", "timeframe"] } ]

/-- C1: applying the version-1 migration to a fresh empty store creates
exactly the three tables `health_metrics`, `vital_scores`, `trends` (each
with precisely the columns, types, NOT NULL / UNIQUE constraints, and
defaults of the spec's §6 DDL, and empty) and exactly the three indexes
`idx_health_metrics_date`, `idx_vital_scores_date`, `idx_trends_metric`,
records version 1 as applied, and creates nothing else. -/
theorem v1_migration_creates_exact_spec_schema :
    applyMigrations emptyDb migrations =
      .ok { tables := [⟨specHealthMetrics, []⟩, ⟨specVitalScores, []⟩, ⟨specTrends, []⟩]
            indexes := specIndexes
            appliedVersions := [1] } := by
  decide

/-- C2: re-running the raw version-1 SQL batch directly against a store that
already has the three tables and their indexes executes the three guarded
`CREATE TABLE IF NOT EXISTS` statements as no-ops but fails with a schema
error at the first unguarded `CREATE INDEX` statement, so the whole batch
fails. -/
theorem rerun_raw_batch_fails_at_create_index :
    execBatch dbWithSchema (migrationV1Sql.take 3) = .ok dbWithSchema ∧
    execStmt dbWithSchema (.createIndex false idxHealthMetricsDate) = .error .schemaError ∧
    execBatch dbWithSchema migrationV1Sql = .error .schemaError := by
  decide

/-- C3: on any store that records version 1 as applied, re-applying the full
migration set succeeds and returns the store completely unchanged — no
error, no duplicate objects, no change to schema, data, or bookkeeping. -/
theorem reapply_migrations_is_noop {db : DbState} (h : 1 ∈ db.appliedVersions) :
    applyMigrations db migrations = .ok db := by
  simp only [migrations, applyMigrations]
  rw [if_pos]
  exact h

/-- Witness for C3 at the freshly migrated store. -/
theorem reapply_migrations_is_noop_witness :
    applyMigrations freshDb migrations = .ok freshDb :=
  reapply_migrations_is_noop (by decide)

/-! ## The migration is DDL-only: it never touches existing rows -/

/-- A single DDL statement can only append fresh (empty) tables: every
pre-existing table state survives unchanged, rows included. -/
theorem execStmt_tables_extend {db db' : DbState} {s : Stmt}
    (h : execStmt db s = .ok db') : ∃ rest, db'.tables = db.tables ++ rest := by
  cases s with
  | createTable ine t =>
    simp only [execStmt] at h
    split at h
    · split at h
      · injection h with h
        exact ⟨[], by rw [← h, List.append_nil]⟩
      · cases h
    · injection h with h
      exact ⟨[{ def_ := t, rows := [] }], by rw [← h]⟩
  | createIndex ine i =>
    simp only [execStmt] at h
    split at h
    · split at h
      · injection h with h
        exact ⟨[], by rw [← h, List.append_nil]⟩
      · cases h
    · split at h
      · injection h with h
        exact ⟨[], by rw [← h, List.append_nil]⟩
      · cases h

/-- Executing a whole statement batch can only append tables. -/
theorem execBatch_tables_extend {stmts : List Stmt} {db db' : DbState}
    (h : execBatch db stmts = .ok db') : ∃ rest, db'.tables = db.tables ++ rest := by
  induction stmts generalizing db with
  | nil =>
    simp only [execBatch] at h
    injection h with h
    exact ⟨[], by rw [← h, List.append_nil]⟩
  | cons s rest ih =>
    simp only [execBatch] at h
    cases hs : execStmt db s with
    | error e => rw [hs] at h; cases h
    | ok dbm =>
      rw [hs] at h
      obtain ⟨r1, h1⟩ := execStmt_tables_extend hs
      obtain ⟨r2, h2⟩ := ih h
      exact ⟨r1 ++ r2, by rw [h2, h1, List.append_assoc]⟩

/-- Applying any migration list can only append tables: every pre-existing
table state (and hence every pre-existing row) survives unchanged. -/
theorem applyMigrations_tables_extend {ms : List Migration} {db db' : DbState}
    (h : applyMigrations db ms = .ok db') : ∃ rest, db'.tables = db.tables ++ rest := by
  induction ms generalizing db with
  | nil =>
    simp only [applyMigrations] at h
    injection h with h
    exact ⟨[], by rw [← h, List.append_nil]⟩
  | cons m rest ih =>
    simp only [applyMigrations] at h
    split at h
    · exact ih h
    · cases hb : execBatch db m.sql with
      | error e => rw [hb] at h; cases h
      | ok dbm =>
        rw [hb] at h
        obtain ⟨r1, h1⟩ := execBatch_tables_extend hb
        obtain ⟨r2, h2⟩ := ih h
        exact ⟨r1 ++ r2, by rw [h2]; simp only [h1, List.append_assoc]⟩

/-- C7: a successful run of the migration set modifies no pre-existing data:
the resulting table list extends the old one, so every table state present
before the call — its definition and every one of its rows — is present
unchanged after the call (the version-1 batch is DDL only). -/
theorem migration_modifies_no_preexisting_rows {db db' : DbState}
    (h : applyMigrations db migrations = .ok db') :
    ∃ rest, db'.tables = db.tables ++ rest ∧ ∀ ts ∈ db.tables, ts ∈ db'.tables := by
  obtain ⟨rest, hrest⟩ := applyMigrations_tables_extend h
  exact ⟨rest, hrest, fun ts hts => by rw [hrest]; exact List.mem_append_left _ hts⟩

/-- A store with one pre-existing populated table, for the C7 witness. -/
def preexistingDb : DbState :=
  { tables := [⟨specTrends, [[("id", Value.int 1)]]⟩], indexes := [],
    appliedVersions := [] }

/-- The result of migrating `preexistingDb`, for the C7 witness. -/
def preexistingDbMigrated : DbState :=
  { tables := [⟨specTrends, [[("id", Value.int 1)]]⟩,
               ⟨healthMetricsTable, []⟩, ⟨vitalScoresTable, []⟩],
    indexes := [idxHealthMetricsDate, idxVitalScoresDate, idxTrendsMetric],
    appliedVersions := [1] }

/-- Witness for C7: a store holding one pre-existing table with one row. -/
theorem migration_modifies_no_preexisting_rows_witness :
    ∃ rest, preexistingDbMigrated.tables = preexistingDb.tables ++ rest ∧
      ∀ ts ∈ preexistingDb.tables, ts ∈ preexistingDbMigrated.tables :=
  migration_modifies_no_preexisting_rows (by decide)

/-! ## Generic insert lemmas -/

/-- An insert whose built row passes the NOT NULL and unique-key checks
succeeds and appends exactly that row to the target table. -/
theorem insertRow_eq_ok {now : String} {db : DbState} {tname : String} {ts : TableState}
    {assigns : List (String × Value)}
    (hFind : findTable db tname = some ts)
    (hNN : NotNullOk ts.def_ (buildRow now (nextId ts.rows) ts.def_ assigns))
    (hU : UniqueOk ts.def_ ts.rows (buildRow now (nextId ts.rows) ts.def_ assigns)) :
    insertRow now db tname assigns =
      .ok (setTable db tname
        (ts.rows ++ [buildRow now (nextId ts.rows) ts.def_ assigns])) := by
  simp only [insertRow, hFind, insertInto, if_pos hNN, if_pos hU]

/-- An insert whose built row leaves a NOT NULL column `NULL` fails with
`ConstraintViolation`. -/
theorem insertRow_eq_error_notnull {now : String} {db : DbState} {tname : String}
    {ts : TableState} {assigns : List (String × Value)}
    (hFind : findTable db tname = some ts)
    (hNN : ¬ NotNullOk ts.def_ (buildRow now (nextId ts.rows) ts.def_ assigns)) :
    insertRow now db tname assigns = .error .constraintViolation := by
  simp only [insertRow, hFind, insertInto, if_neg hNN]

/-- An insert whose built row passes the NOT NULL check but violates a
unique key fails with `ConstraintViolation`. -/
theorem insertRow_eq_error_unique {now : String} {db : DbState} {tname : String}
    {ts : TableState} {assigns : List (String × Value)}
    (hFind : findTable db tname = some ts)
    (hNN : NotNullOk ts.def_ (buildRow now (nextId ts.rows) ts.def_ assigns))
    (hU : ¬ UniqueOk ts.def_ ts.rows (buildRow now (nextId ts.rows) ts.def_ assigns)) :
    insertRow now db tname assigns = .error .constraintViolation := by
  simp only [insertRow, hFind, insertInto, if_pos hNN, if_neg hU]

/-- A row of the table never has an id exceeding the table's maximum id. -/
theorem idOf_le_idMax {rows : List Row} {r : Row} (h : r ∈ rows) :
    idOf r ≤ idMax rows := by
  induction rows with
  | nil => cases h
  | cons a l ih =>
    simp only [idMax]
    rcases List.mem_cons.mp h with h1 | h2
    · subst h1; exact le_max_left _ _
    · exact le_trans (ih h2) (le_max_right _ _)

/-- The auto-assigned id is fresh: no existing row carries it. -/
theorem getVal_id_ne_nextId {rows : List Row} {r : Row} (h : r ∈ rows) :
    getVal r "id" ≠ .int (nextId rows) := by
  intro he
  have h1 : idOf r = nextId rows := by simp only [idOf, he]
  have h2 := idOf_le_idMax h
  rw [h1] at h2
  simp only [nextId] at h2
  omega

/-- A witnessed conflict on any unique key refutes the unique-key check. -/
theorem not_uniqueOk_of_conflict {t : TableDef} {rows : List Row} {row : Row}
    {k : List String} {r0 : Row}
    (hk : k ∈ uniqueKeys t) (hr0 : r0 ∈ rows)
    (hnn : ∀ v ∈ keyVals row k, v ≠ .null)
    (heq : keyVals r0 k = keyVals row k) :
    ¬ UniqueOk t rows row :=
  fun hU => hU k hk ⟨hnn, r0, hr0, heq⟩

/-- Unique-key check for a table whose unique keys are the primary key and a
single `date` column: the fresh id never conflicts, and a `date` value absent
from the table never conflicts. -/
theorem uniqueOk_id_date {t : TableDef} {rows : List Row} {row : Row} {d : String}
    (hkeys : uniqueKeys t = [["id"], ["date"]])
    (hid : getVal row "id" = .int (nextId rows))
    (hdate : getVal row "date" = .text d)
    (hfresh : ∀ r0 ∈ rows, getVal r0 "date" ≠ .text d) :
    UniqueOk t rows row := by
  intro k hk
  rw [hkeys] at hk
  rintro ⟨hnn, r0, hr0, heq⟩
  rcases List.mem_cons.mp hk with rfl | hk2
  · have hg : getVal r0 "id" = .int (nextId rows) := by
      simpa [keyVals, hid] using heq
    exact getVal_id_ne_nextId hr0 hg
  · rcases List.mem_cons.mp hk2 with rfl | hk3
    · have hg : getVal r0 "date" = .text d := by
        simpa [keyVals, hdate] using heq
      exact hfresh r0 hr0 hg
    · simp at hk3

/-- Unique-key check for the `trends` table: the fresh id never conflicts,
and a `(metric, timeframe)` pair absent from the table never conflicts. -/
theorem uniqueOk_trends {rows : List Row} {row : Row} {m tf : String}
    (hid : getVal row "id" = .int (nextId rows))
    (hmet : getVal row "metric" = .text m)
    (htf : getVal row "timeframe" = .text tf)
    (hfresh : ∀ r0 ∈ rows,
      ¬(getVal r0 "metric" = .text m ∧ getVal r0 "timeframe" = .text tf)) :
    UniqueOk trendsTable rows row := by
  intro k hk
  have hk1 : k ∈ [["id"], ["metric", "timeframe"]] := hk
  rintro ⟨hnn, r0, hr0, heq⟩
  rcases List.mem_cons.mp hk1 with rfl | hk2
  · have hg : getVal r0 "id" = .int (nextId rows) := by
      simpa [keyVals, hid] using heq
    exact getVal_id_ne_nextId hr0 hg
  · rcases List.mem_cons.mp hk2 with rfl | hk3
    · have hg : getVal r0 "metric" = .text m ∧ getVal r0 "timeframe" = .text tf := by
        have h1 := heq
        simp [keyVals, hmet, htf] at h1
        exact h1
      exact hfresh r0 hr0 hg
    · simp at hk3

/-! ## The insert-facing constraint claims -/

/-- C4: on any store whose `health_metrics` table has the migrated
definition, inserting a health-metric row whose `date` equals an existing
row's date fails with `ConstraintViolation` (the failed insert returns only
the error, so the store is unchanged), while inserting a row whose `date`
differs from every existing row's date succeeds and appends exactly that
row — so the table always holds at most one row per date. -/
theorem health_metrics_date_unique {now d : String} {db : DbState} {rows : List Row}
    (hFind : findTable db "health_metrics" = some ⟨healthMetricsTable, rows⟩) :
    ((∃ r0 ∈ rows, getVal r0 "date" = .text d) →
      insertRow now db "health_metrics" [("date", .text d)] =
        .error .constraintViolation) ∧
    ((∀ r0 ∈ rows, getVal r0 "date" ≠ .text d) →
      insertRow now db "health_metrics" [("date", .text d)] =
        .ok (setTable db "health_metrics"
          (rows ++ [buildRow now (nextId rows) healthMetricsTable
            [("date", .text d)]]))) := by
  constructor
  · rintro ⟨r0, hr0, hdup⟩
    refine insertRow_eq_error_unique hFind ?_ ?_
    · simp [NotNullOk, healthMetricsTable, buildRow, assignedVal, defaultVal, getVal]
    · refine not_uniqueOk_of_conflict (k := ["date"])
        (show ["date"] ∈ uniqueKeys healthMetricsTable from by decide) hr0 ?_ ?_
      · simp [show keyVals (buildRow now (nextId rows) healthMetricsTable
          [("date", Value.text d)]) ["date"] = [Value.text d] from rfl]
      · simp [keyVals, hdup,
          show getVal (buildRow now (nextId rows) healthMetricsTable
            [("date", Value.text d)]) "date" = Value.text d from rfl]
  · intro hfresh
    refine insertRow_eq_ok hFind ?_ ?_
    · simp [NotNullOk, healthMetricsTable, buildRow, assignedVal, defaultVal, getVal]
    · exact uniqueOk_id_date rfl rfl rfl hfresh

/-- One health-metric row dated 2024-01-01, for the C4 witness. -/
def hmRow0 : Row := buildRow "t0" 1 healthMetricsTable [("date", .text "2024-01-01")]

/-- A migrated store holding `hmRow0`, for the C4 witness. -/
def dbOneMetric : DbState := setTable freshDb "health_metrics" [hmRow0]

/-- Witness for C4: the duplicate date is rejected, the fresh date accepted. -/
theorem health_metrics_date_unique_witness :
    insertRow "t1" dbOneMetric "health_metrics" [("date", .text "2024-01-01")] =
      .error .constraintViolation ∧
    insertRow "t1" dbOneMetric "health_metrics" [("date", .text "2024-01-02")] =
      .ok (setTable dbOneMetric "health_metrics"
        ([hmRow0] ++ [buildRow "t1" (nextId [hmRow0]) healthMetricsTable
          [("date", .text "2024-01-02")]])) :=
  ⟨(@health_metrics_date_unique "t1" "2024-01-01" dbOneMetric [hmRow0]
      (by decide)).1 (by decide),
   (@health_metrics_date_unique "t1" "2024-01-02" dbOneMetric [hmRow0]
      (by decide)).2 (by decide)⟩

/-- C5: on any store whose `trends` table has the migrated definition,
inserting a trend row whose `(metric, timeframe)` pair equals an existing
row's pair fails with `ConstraintViolation`, while inserting a row whose
pair differs (in metric, timeframe, or both) from every existing row's pair
succeeds and appends exactly that row. -/
theorem trends_pair_unique {now m tf : String} {db : DbState} {rows : List Row}
    (hFind : findTable db "trends" = some ⟨trendsTable, rows⟩) :
    ((∃ r0 ∈ rows, getVal r0 "metric" = .text m ∧ getVal r0 "timeframe" = .text tf) →
      insertRow now db "trends" [("metric", .text m), ("timeframe", .text tf)] =
        .error .constraintViolation) ∧
    ((∀ r0 ∈ rows, ¬(getVal r0 "metric" = .text m ∧ getVal r0 "timeframe" = .text tf)) →
      insertRow now db "trends" [("metric", .text m), ("timeframe", .text tf)] =
        .ok (setTable db "trends"
          (rows ++ [buildRow now (nextId rows) trendsTable
            [("metric", .text m), ("timeframe", .text tf)]]))) := by
  constructor
  · rintro ⟨r0, hr0, hdup⟩
    refine insertRow_eq_error_unique hFind ?_ ?_
    · simp [NotNullOk, trendsTable, buildRow, assignedVal, defaultVal, getVal]
    · refine not_uniqueOk_of_conflict (k := ["metric", "timeframe"])
        (show ["metric", "timeframe"] ∈ uniqueKeys trendsTable from by decide) hr0 ?_ ?_
      · simp [show keyVals (buildRow now (nextId rows) trendsTable
          [("metric", Value.text m), ("timeframe", Value.text tf)])
            ["metric", "timeframe"] = [Value.text m, Value.text tf] from rfl]
      · simp [keyVals, hdup.1, hdup.2,
          show getVal (buildRow now (nextId rows) trendsTable
            [("metric", Value.text m), ("timeframe", Value.text tf)]) "metric" =
            Value.text m from rfl,
          show getVal (buildRow now (nextId rows) trendsTable
            [("metric", Value.text m), ("timeframe", Value.text tf)]) "timeframe" =
            Value.text tf from rfl]
  · intro hfresh
    refine insertRow_eq_ok hFind ?_ ?_
    · simp [NotNullOk, trendsTable, buildRow, assignedVal, defaultVal, getVal]
    · exact uniqueOk_trends rfl rfl rfl hfresh

/-- One trend row for `resting_hr` over `7d`, for the C5 witness. -/
def trRow0 : Row :=
  buildRow "t0" 1 trendsTable [("metric", .text "resting_hr"), ("timeframe", .text "7d")]

/-- A migrated store holding `trRow0`, for the C5 witness. -/
def dbOneTrend : DbState := setTable freshDb "trends" [trRow0]

/-- Witness for C5: the duplicate pair is rejected; changing the timeframe
makes the insert succeed. -/
theorem trends_pair_unique_witness :
    insertRow "t1" dbOneTrend "trends"
      [("metric", .text "resting_hr"), ("timeframe", .text "7d")] =
      .error .constraintViolation ∧
    insertRow "t1" dbOneTrend "trends"
      [("metric", .text "resting_hr"), ("timeframe", .text "30d")] =
      .ok (setTable dbOneTrend "trends"
        ([trRow0] ++ [buildRow "t1" (nextId [trRow0]) trendsTable
          [("metric", .text "resting_hr"), ("timeframe", .text "30d")]])) :=
  ⟨(@trends_pair_unique "t1" "resting_hr" "7d" dbOneTrend [trRow0]
      (by decide)).1 (by decide),
   (@trends_pair_unique "t1" "resting_hr" "30d" dbOneTrend [trRow0]
      (by decide)).2 (by decide)⟩

/-- C6: on any store whose `vital_scores` table has the migrated definition,
an insert omitting `score` (or supplying an explicit `NULL` for it) fails
with `ConstraintViolation`, while an insert supplying only `date` (fresh)
and `score` — omitting `sleep_component`, `recovery_component`,
`strain_component`, and `recommendation` — succeeds and appends exactly
that row. -/
theorem vital_scores_score_required {now d : String} {sc : Int}
    {db : DbState} {rows : List Row}
    (hFind : findTable db "vital_scores" = some ⟨vitalScoresTable, rows⟩) :
    insertRow now db "vital_scores" [("date", .text d)] =
      .error .constraintViolation ∧
    insertRow now db "vital_scores" [("date", .text d), ("score", .null)] =
      .error .constraintViolation ∧
    ((∀ r0 ∈ rows, getVal r0 "date" ≠ .text d) →
      insertRow now db "vital_scores" [("date", .text d), ("score", .int sc)] =
        .ok (setTable db "vital_scores"
          (rows ++ [buildRow now (nextId rows) vitalScoresTable
            [("date", .text d), ("score", .int sc)]]))) := by
  refine ⟨?_, ?_, ?_⟩
  · refine insertRow_eq_error_notnull hFind ?_
    intro h
    exact h ⟨"score", .integer, false, true, false, none⟩
      (show ⟨"score", .integer, false, true, false, none⟩ ∈ vitalScoresTable.columns
        from by decide) rfl rfl
  · refine insertRow_eq_error_notnull hFind ?_
    intro h
    exact h ⟨"score", .integer, false, true, false, none⟩
      (show ⟨"score", .integer, false, true, false, none⟩ ∈ vitalScoresTable.columns
        from by decide) rfl rfl
  · intro hfresh
    refine insertRow_eq_ok hFind ?_ ?_
    · simp [NotNullOk, vitalScoresTable, buildRow, assignedVal, defaultVal, getVal]
    · exact uniqueOk_id_date rfl rfl rfl hfresh

/-- Witness for C6 on the freshly migrated (empty) store. -/
theorem vital_scores_score_required_witness :
    insertRow "t" freshDb "vital_scores" [("date", .text "2024-01-01")] =
      .error .constraintViolation ∧
    insertRow "t" freshDb "vital_scores"
      [("date", .text "2024-01-01"), ("score", .null)] =
      .error .constraintViolation ∧
    insertRow "t" freshDb "vital_scores"
      [("date", .text "2024-01-01"), ("score", .int 80)] =
      .ok (setTable freshDb "vital_scores"
        ([] ++ [buildRow "t" (nextId []) vitalScoresTable
          [("date", .text "2024-01-01"), ("score", .int 80)]])) :=
  ⟨(@vital_scores_score_required "t" "2024-01-01" 80 freshDb [] (by decide)).1,
   (@vital_scores_score_required "t" "2024-01-01" 80 freshDb [] (by decide)).2.1,
   (@vital_scores_score_required "t" "2024-01-01" 80 freshDb [] (by decide)).2.2
     (by decide)⟩

/-- C10: on any store whose `trends` table has the migrated definition, an
insert supplying only a fresh non-null `(metric, timeframe)` pair succeeds,
storing `NULL` for `baseline`, `current_avg`, `percent_change`, and
`direction` and the insertion timestamp for `detected_at`; moreover no
schema constraint relates `percent_change` to `baseline` and `current_avg`
or restricts `direction`: the same insert extended with arbitrary values
for those four columns also succeeds. -/
theorem trends_minimal_and_unconstrained_insert {now m tf dir : String}
    {b c pc : Rat} {db : DbState} {rows : List Row}
    (hFind : findTable db "trends" = some ⟨trendsTable, rows⟩)
    (hfresh : ∀ r0 ∈ rows,
      ¬(getVal r0 "metric" = .text m ∧ getVal r0 "timeframe" = .text tf)) :
    (∃ row, insertRow now db "trends"
        [("metric", .text m), ("timeframe", .text tf)] =
        .ok (setTable db "trends" (rows ++ [row])) ∧
      getVal row "baseline" = .null ∧ getVal row "current_avg" = .null ∧
      getVal row "percent_change" = .null ∧ getVal row "direction" = .null ∧
      getVal row "detected_at" = .text now) ∧
    insertRow now db "trends"
        [("metric", .text m), ("timeframe", .text tf), ("baseline", .real b),
         ("current_avg", .real c), ("percent_change", .real pc),
         ("direction", .text dir)] =
      .ok (setTable db "trends" (rows ++
        [buildRow now (nextId rows) trendsTable
          [("metric", .text m), ("timeframe", .text tf), ("baseline", .real b),
           ("current_avg", .real c), ("percent_change", .real pc),
           ("direction", .text dir)]])) := by
  constructor
  · refine ⟨buildRow now (nextId rows) trendsTable
      [("metric", .text m), ("timeframe", .text tf)], ?_, rfl, rfl, rfl, rfl, rfl⟩
    refine insertRow_eq_ok hFind ?_ ?_
    · simp [NotNullOk, trendsTable, buildRow, assignedVal, defaultVal, getVal]
    · exact uniqueOk_trends rfl rfl rfl hfresh
  · refine insertRow_eq_ok hFind ?_ ?_
    · simp [NotNullOk, trendsTable, buildRow, assignedVal, defaultVal, getVal]
    · exact uniqueOk_trends rfl rfl rfl hfresh

/-- Witness for C10 on the freshly migrated (empty) store. -/
theorem trends_minimal_and_unconstrained_insert_witness :
    (∃ row, insertRow "t" freshDb "trends"
        [("metric", .text "resting_hr"), ("timeframe", .text "7d")] =
        .ok (setTable freshDb "trends" ([] ++ [row])) ∧
      getVal row "baseline" = .null ∧ getVal row "current_avg" = .null ∧
      getVal row "percent_change" = .null ∧ getVal row "direction" = .null ∧
      getVal row "detected_at" = .text "t") ∧
    insertRow "t" freshDb "trends"
        [("metric", .text "resting_hr"), ("timeframe", .text "7d"),
         ("baseline", .real 10), ("current_avg", .real 20),
         ("percent_change", .real 999), ("direction", .text "sideways")] =
      .ok (setTable freshDb "trends" ([] ++
        [buildRow "t" (nextId []) trendsTable
          [("metric", .text "resting_hr"), ("timeframe", .text "7d"),
           ("baseline", .real 10), ("current_avg", .real 20),
           ("percent_change", .real 999), ("direction", .text "sideways")]])) :=
  @trends_minimal_and_unconstrained_insert "t" "resting_hr" "7d" "sideways"
    10 20 999 freshDb [] (by decide) (by decide)

/-- C8: the migration set is registered against the connection string
`sqlite:summit.db` — the database file `summit.db` behind the `sqlite:`
scheme — and contains exactly one entry, with version 1 and description
"create initial tables". -/
theorem registration_identity :
    sqlPluginRegistrations.map (fun p => p.1) = ["sqlite:summit.db"] ∧
    registeredDbUrl = "sqlite:" ++ "summit.db" ∧
    migrations.map (fun m => (m.version, m.description)) =
      [(1, "create initial tables")] := by
  refine ⟨rfl, rfl, rfl⟩

/-- C9: the registered migration sequence has exactly one entry and its kind
is `Up`; no `Down` (rollback) migration exists in the set. -/
theorem single_up_migration_no_rollback :
    migrations.map (fun m => m.kind) = [MigrationKind.up] ∧
    migrations.length = 1 := by
  refine ⟨rfl, rfl⟩

end Summit
